import Mathlib

/-!
Verification of the widget-building core of the `toot` repository
(`src/widgets/status.rs` and `src/widgets/account.rs`).

The Rust code is a pair of pure render functions mapping domain records
(Account / Status / Notification) plus an image-handle cache to a declarative
widget tree.  We embed the data model and both render functions shallowly:

* `HashMap<String, Handle>` is embedded as an association list with
  first-match lookup (`lookupHandle`); values inserted for a key depend only
  on the key, so the overwrite-vs-first-match difference is immaterial.
* The external `html2text` rich-text conversion and the `time` date
  formatting are embedded as explicit function parameters
  (`conv`, `fmtDate`) returning `Option String`; the Rust `.unwrap()` calls
  on their results become `Option` propagation, so a `none` result of the
  embedded render corresponds exactly to a panic of the Rust render.
* The ambient cosmic theme spacing (`cosmic::theme::active().cosmic().spacing`)
  is embedded as an explicit `Spacing` parameter.
* Pure layout-only modifiers that no property depends on
  (`Length::Fill`, `align_x`, widget ids) are not tracked; sizes, spacings,
  paddings, classes, labels and press messages are tracked.
-/

namespace Toot

/-- An opaque decoded-image handle (`cosmic::widget::image::Handle`). -/
structure Handle where
  url : String
deriving DecidableEq, Repr

/-- The host's image cache: `HashMap<String, Handle>` keyed by image URL. -/
abbrev HandleMap := List (String × Handle)

/-- Embeds `HashMap::get` on the cache: first entry whose key matches. -/
def lookupHandle (m : HandleMap) (k : String) : Option Handle :=
  match m with
  | [] => none
  | (k₁, v) :: rest => if k₁ = k then some v else lookupHandle rest k

/-- A profile field (`mastodon_async` account field): label/value pair. -/
structure AccountField where
  name : String
  value : String
deriving DecidableEq, Repr

/-- Embeds `mastodon_async::prelude::Account`, restricted to the fields the two
render functions read. -/
structure MastAccount where
  avatar : String
  header : String
  display_name : String
  username : String
  url : String
  note : String
  created_at : String
  followers_count : Nat
  following_count : Nat
  statuses_count : Nat
  fields : Option (List AccountField)
deriving DecidableEq, Repr

/-- A media attachment: preview-image URL plus optional full link URL. -/
structure MediaAttachment where
  preview_url : String
  url : Option String
deriving DecidableEq, Repr

/-- A hashtag on a status. -/
structure MastTag where
  name : String
  url : String
deriving DecidableEq, Repr

/-- Embeds `mastodon_async::prelude::Status`, restricted to the fields the render
functions read.  `reblog` is a nested optional status (`Option<Box<Status>>`). -/
inductive MastStatus where
  | mk
      (id : String)
      (account : MastAccount)
      (content : String)
      (media_attachments : List MediaAttachment)
      (tags : List MastTag)
      (reblog : Option MastStatus)
      (replies_count : Option Nat)
      (reblogs_count : Nat)
      (favourites_count : Nat)
      (favourited : Option Bool)

def MastStatus.id : MastStatus → String
  | .mk i _ _ _ _ _ _ _ _ _ => i

def MastStatus.account : MastStatus → MastAccount
  | .mk _ a _ _ _ _ _ _ _ _ => a

def MastStatus.content : MastStatus → String
  | .mk _ _ c _ _ _ _ _ _ _ => c

def MastStatus.media_attachments : MastStatus → List MediaAttachment
  | .mk _ _ _ m _ _ _ _ _ _ => m

def MastStatus.tags : MastStatus → List MastTag
  | .mk _ _ _ _ t _ _ _ _ _ => t

def MastStatus.reblog : MastStatus → Option MastStatus
  | .mk _ _ _ _ _ r _ _ _ _ => r

def MastStatus.replies_count : MastStatus → Option Nat
  | .mk _ _ _ _ _ _ rc _ _ _ => rc

def MastStatus.reblogs_count : MastStatus → Nat
  | .mk _ _ _ _ _ _ _ bc _ _ => bc

def MastStatus.favourites_count : MastStatus → Nat
  | .mk _ _ _ _ _ _ _ _ fc _ => fc

def MastStatus.favourited : MastStatus → Option Bool
  | .mk _ _ _ _ _ _ _ _ _ f => f

/-- Embeds `mastodon_async::prelude::Notification`, restricted to the fields read by
`StatusHandles::from_notification`: the actor account and the optional
embedded status. -/
structure MastNotification where
  account : MastAccount
  status : Option MastStatus

/-- Modelled from the spec: `crate::utils::fallback_handle()` (`utils.rs` is
not under `src/`).  The spec calls it "a fixed fallback image handle used when
the real image has not yet been loaded"; we model it as a fixed constant. -/
def fallback_handle : Handle := ⟨"fallback-placeholder"⟩

/-- Modelled from the spec: the handle underlying
`crate::utils::fallback_avatar()` (`utils.rs` is not under `src/`), the fixed
fallback avatar image widget; modelled as a fixed constant distinct from
`fallback_handle`. -/
def fallback_avatar_handle : Handle := ⟨"fallback-avatar"⟩

/-- The per-render snapshot of resolved handles (`StatusHandles`). -/
structure StatusHandles where
  primary : Option Handle
  secondary : Option Handle
  media : List (String × Handle)
deriving DecidableEq, Repr

/-- Embeds `StatusHandles::from_status`: primary = cache entry for the outer
author's avatar; secondary = cache entry for the reblogged author's avatar
when a reblog exists; media = one entry per attachment of the outer status,
falling back to `fallback_handle` when uncached. -/
def StatusHandles.from_status (status : MastStatus) (handles : HandleMap) :
    StatusHandles :=
  { primary := lookupHandle handles status.account.avatar
    secondary :=
      (status.reblog.map
        (fun reblog => lookupHandle handles reblog.account.avatar)).getD none
    media :=
      status.media_attachments.map
        (fun media =>
          (media.preview_url,
            (lookupHandle handles media.preview_url).getD fallback_handle)) }

/-- Embeds `StatusHandles::from_notification`: primary = cache entry for the actor's
avatar; secondary = cache entry for the embedded status author's avatar;
media = one entry per attachment of the embedded status, falling back to
`fallback_handle` when uncached. -/
def StatusHandles.from_notification (notification : MastNotification)
    (handles : HandleMap) : StatusHandles :=
  { primary := lookupHandle handles notification.account.avatar
    secondary :=
      notification.status.bind
        (fun status => lookupHandle handles status.account.avatar)
    media :=
      (notification.status.map
        (fun status =>
          status.media_attachments.map
            (fun media =>
              (media.preview_url,
                (lookupHandle handles media.preview_url).getD
                  fallback_handle)))).getD [] }

/-- Status-view messages (`widgets::status::Message`). -/
inductive StatusMsg where
  | openProfile (url : String)
  | expandStatus (status : MastStatus)
  | reply (id : String)
  | favorite (id : String)
  | boost (id : String)
  | bookmark (id : String)
  | openLink (url : String)

/-- Account-view messages (`widgets::account::Message`). -/
inductive AccountMsg where
  | openUrl (url : String)

/-- Button style classes used by the code (`cosmic::theme::Button::Link`,
`cosmic::theme::Button::Standard`, `cosmic::style::Button::Icon`). -/
inductive BtnClass where
  | link
  | standard
  | icon
deriving DecidableEq, Repr

/-- The declarative widget tree, restricted to the constructors the two
render functions emit.  `M` is the message type of the view. -/
inductive Widget (M : Type) where
  | image (h : Handle) (width : Option Nat) (height : Option Nat)
  | text (s : String)
  | textSized (size : Nat) (s : String)
  | accentText (s : String)
  | caption (s : String)
  | title3 (s : String)
  | linkButton (label : String) (onPress : Option M)
  | suggestedButton (label : String) (onPress : Option M)
  | imageButton (h : Handle) (width : Option Nat) (height : Option Nat)
      (onPress : Option M)
  | iconButton (icon : String) (label : Option String)
      (cls : Option BtnClass) (onPress : Option M)
  | customButton (cls : Option BtnClass) (onPress : Option M)
      (inner : Widget M)
  | mouseArea (onPress : Option M) (inner : Widget M)
  | scrollableH (inner : Widget M)
  | container (card : Bool) (inner : Widget M)
  | dividerV
  | row (spacing : Option Nat) (padding : Option Nat)
      (children : List (Widget M))
  | column (spacing : Option Nat) (children : List (Widget M))
  | fieldsSection (children : List (Widget M))
  | flexItemRow (padding : Nat) (children : List (Widget M))

/-- Theme spacing values read from the ambient cosmic theme; embedded as an
explicit parameter. -/
structure Spacing where
  space_xs : Nat
  space_xxs : Nat
deriving DecidableEq, Repr

/-- The avatar slot selection at the top of `status()`: when a reblog is
present the pair is `(handles.secondary, handles.primary)`, otherwise
`(handles.primary, handles.secondary)` — component 1 is `status_avatar`,
component 2 is `reblog_avatar`. -/
def avatarSlots (status : MastStatus) (handles : StatusHandles) :
    Option Handle × Option Handle :=
  if status.reblog.isSome then (handles.secondary, handles.primary)
  else (handles.primary, handles.secondary)

/-- The "boosted" banner: present exactly when the status has a reblog; shows
the banner avatar (or the fallback avatar at 20×20) and
"{outer author} boosted", and opens the outer author's profile on press. -/
def bannerFor (sp : Spacing) (status : MastStatus)
    (reblog_avatar : Option Handle) : Option (Widget StatusMsg) :=
  status.reblog.map
    (fun _ =>
      Widget.customButton none
        (some (StatusMsg.openProfile status.account.url))
        (Widget.row (some sp.space_xs) none
          [ (reblog_avatar.map
              (fun avatar => Widget.image avatar (some 20) (some 20))).getD
              (Widget.image fallback_avatar_handle (some 20) (some 20)),
            Widget.text (status.account.display_name ++ " boosted") ]))

/-- Embeds `status.reblog.as_deref().unwrap_or(&status)`: the displayed (effective)
status — the reblogged one when present, the status itself otherwise. -/
def effStatus (status : MastStatus) : MastStatus :=
  status.reblog.getD status

/-- The main content row: the author avatar button (50×50, fallback handle
when the slot is empty), then a column with the display-name link and the
body text in a press-sensitive mouse area. -/
def contentRow (sp : Spacing) (eff : MastStatus)
    (status_avatar : Option Handle) (bodyText : String) : Widget StatusMsg :=
  Widget.row (some sp.space_xs) none
    [ Widget.imageButton (status_avatar.getD fallback_handle)
        (some 50) (some 50)
        (some (StatusMsg.openProfile eff.account.url)),
      Widget.column (some sp.space_xxs)
        [ Widget.linkButton
            (eff.account.display_name ++ " @" ++ eff.account.username)
            (some (StatusMsg.openProfile eff.account.url)),
          Widget.mouseArea (some (StatusMsg.expandStatus eff))
            (Widget.text bodyText) ] ]

/-- The tag chip row: present only when the tag list is non-empty. -/
def tagsRow (sp : Spacing) (eff : MastStatus) : Option (Widget StatusMsg) :=
  if eff.tags.isEmpty then none
  else
    some (Widget.row (some sp.space_xxs) none
      (eff.tags.map
        (fun tag =>
          Widget.suggestedButton ("#" ++ tag.name)
            (some (StatusMsg.openLink tag.url)))))

/-- The attachment image buttons: one per attachment whose preview URL has an
entry in `handles.media`; pressing opens the attachment link when present. -/
def attachmentImages (eff : MastStatus) (handles : StatusHandles) :
    List (Widget StatusMsg) :=
  eff.media_attachments.filterMap
    (fun media =>
      (lookupHandle handles.media media.preview_url).map
        (fun handle =>
          Widget.imageButton handle none none
            (media.url.map StatusMsg.openLink)))

/-- The horizontally scrollable media strip: present only when the effective
status's media-attachment list is non-empty. -/
def mediaStripFor (sp : Spacing) (eff : MastStatus)
    (handles : StatusHandles) : Option (Widget StatusMsg) :=
  if eff.media_attachments.isEmpty then none
  else
    some (Widget.scrollableH
      (Widget.row (some sp.space_xxs) none (attachmentImages eff handles)))

/-- The action row: reply (count, defaulting to 0 when absent), boost
(count), favorite (count, Link class when favourited else Standard),
bookmark. -/
def actionsRow (sp : Spacing) (eff : MastStatus) (fav : Bool) :
    Widget StatusMsg :=
  Widget.row (some sp.space_xs) (some sp.space_xs)
    [ Widget.iconButton "mail-replied-symbolic"
        (some (toString (eff.replies_count.getD 0))) none
        (some (StatusMsg.reply eff.id)),
      Widget.iconButton "emblem-shared-symbolic"
        (some (toString eff.reblogs_count)) none
        (some (StatusMsg.boost eff.id)),
      Widget.iconButton "starred-symbolic"
        (some (toString eff.favourites_count))
        (some (if fav then BtnClass.link else BtnClass.standard))
        (some (StatusMsg.favorite eff.id)),
      Widget.iconButton "bookmark-new-symbolic" none none
        (some (StatusMsg.bookmark eff.id)) ]

/-- The assembled status card, given the already-converted body text and the
unwrapped favourited flag. -/
def statusTree (sp : Spacing) (st : MastStatus) (handles : StatusHandles)
    (bodyText : String) (fav : Bool) : Widget StatusMsg :=
  Widget.flexItemRow sp.space_xs
    [ Widget.column (some sp.space_xs)
        ((bannerFor sp st (avatarSlots st handles).2).toList
          ++ [contentRow sp (effStatus st) (avatarSlots st handles).1 bodyText]
          ++ (mediaStripFor sp (effStatus st) handles).toList
          ++ (tagsRow sp (effStatus st)).toList
          ++ [actionsRow sp (effStatus st) fav]) ]

/-- Embeds `widgets::status::status`.  Here `conv` stands for the
`html2text::config::rich().string_from_read(_, 700)` conversion; a `none`
outcome of `conv` or an absent `favourited` flag corresponds to the Rust
`.unwrap()` panics, so the embedded render returns `none` exactly there. -/
def statusRender (conv : String → Option String) (sp : Spacing)
    (st : MastStatus) (handles : StatusHandles) :
    Option (Widget StatusMsg) :=
  match conv (effStatus st).content, (effStatus st).favourited with
  | some bodyText, some fav => some (statusTree sp st handles bodyText fav)
  | _, _ => none

/-- One profile field widget: capitalised name above the accent-styled
converted value, the whole button opening the converted value on press.
Returns `none` when the rich-text conversion of the value fails (the Rust
code unwraps there). -/
def fieldWidget (conv : String → Option String) (field : AccountField) :
    Option (Widget AccountMsg) :=
  (conv field.value).map
    (fun value =>
      Widget.customButton (some BtnClass.icon)
        (some (AccountMsg.openUrl value))
        (Widget.column none
          [ Widget.text field.name.capitalize,
            Widget.accentText value ]))

/-- Embeds `Vec::collect` over per-element fallible construction: `none` as soon as
one element fails (the Rust code unwraps each element). -/
def collectFields (conv : String → Option String) :
    List AccountField → Option (List (Widget AccountMsg))
  | [] => some []
  | field :: rest =>
    match fieldWidget conv field with
    | none => none
    | some w => (collectFields conv rest).map (fun ws => w :: ws)

/-- The optional fields section content: outer `none` = a conversion failed;
inner `none` = the account has no field list at all. -/
def fieldsWidgets (conv : String → Option String) (acc : MastAccount) :
    Option (Option (List (Widget AccountMsg))) :=
  match acc.fields with
  | none => some none
  | some fs => (collectFields conv fs).map some

/-- One counter column of the followers/following/posts triptych. -/
def statColumn (label : String) (count : Nat) : Widget AccountMsg :=
  Widget.column none [ Widget.text label, Widget.title3 (toString count) ]

/-- The card container holding the three counters separated by dividers. -/
def infoRow (sp : Spacing) (acc : MastAccount) : Widget AccountMsg :=
  Widget.container true
    (Widget.row (some sp.space_xs) (some sp.space_xs)
      [ statColumn "Followers" acc.followers_count,
        Widget.dividerV,
        statColumn "Following" acc.following_count,
        Widget.dividerV,
        statColumn "Posts" acc.statuses_count ])

/-- The assembled account card, given the already-converted note text, the
formatted join date and the optional field widgets. -/
def accountTree (sp : Spacing) (acc : MastAccount) (cache : HandleMap)
    (noteText : String) (joinedStr : String)
    (fieldsOpt : Option (List (Widget AccountMsg))) : Widget AccountMsg :=
  Widget.flexItemRow sp.space_xs
    [ Widget.column (some sp.space_xs)
        (((lookupHandle cache acc.header).map
            (fun h => Widget.image h none none)).toList
          ++ ((lookupHandle cache acc.avatar).map
              (fun h => Widget.image h (some 100) none)).toList
          ++ [ Widget.textSized 18 acc.display_name,
               Widget.linkButton ("@" ++ acc.username)
                 (some (AccountMsg.openUrl acc.url)) ]
          ++ (if acc.note = "" then [] else [Widget.text noteText])
          ++ [ Widget.caption ("Joined on " ++ joinedStr), infoRow sp acc ]
          ++ (fieldsOpt.map Widget.fieldsSection).toList) ]

/-- Embeds `widgets::account::account`.  Here `conv` stands for the `html2text` conversion
and `fmtDate` embeds `created_at.format(...)` with the constant
`"[day] [month repr:short] [year]"` description; note that the Rust
`then_some` evaluates the bio conversion eagerly, even for an empty note. -/
def accountRender (conv : String → Option String)
    (fmtDate : String → Option String) (sp : Spacing) (acc : MastAccount)
    (cache : HandleMap) : Option (Widget AccountMsg) :=
  match conv acc.note, fmtDate acc.created_at, fieldsWidgets conv acc with
  | some noteText, some joinedStr, some fieldsOpt =>
    some (accountTree sp acc cache noteText joinedStr fieldsOpt)
  | _, _, _ => none

/-! ### Extraction functions on rendered trees

Both render functions return `flexItemRow pad [column sp children]`; the
extractors below read components back out of that shape, so that theorems can
speak about "the banner", "the main avatar", "the media strip images", etc.
of an arbitrary rendered tree. -/

/-- The direct children of the single top-level column. -/
def topChildren {M : Type} : Widget M → Option (List (Widget M))
  | .flexItemRow _ [.column _ cs] => some cs
  | _ => none

/-- The boost banner: the first child when it is the banner's custom
button. -/
def boostBannerOf (w : Widget StatusMsg) : Option (Widget StatusMsg) :=
  (topChildren w).bind
    (fun cs =>
      match cs with
      | Widget.customButton cls press inner :: _ =>
        some (Widget.customButton cls press inner)
      | _ => none)

/-- The avatar widget inside the boost banner (its row's first child). -/
def bannerAvatarOf (w : Widget StatusMsg) : Option (Widget StatusMsg) :=
  (boostBannerOf w).bind
    (fun banner =>
      match banner with
      | Widget.customButton _ _ (Widget.row _ _ (avatar :: _)) => some avatar
      | _ => none)

/-- The handle of the main-card avatar image button: the first child that is
a row headed by an image button (the content row). -/
def mainAvatarOf (w : Widget StatusMsg) : Option Handle :=
  (topChildren w).bind
    (List.findSome?
      (fun c =>
        match c with
        | Widget.row _ _ (Widget.imageButton h _ _ _ :: _) => some h
        | _ => none))

/-- The children of the scrollable media strip's row, when a strip exists. -/
def mediaImagesOf (w : Widget StatusMsg) :
    Option (List (Widget StatusMsg)) :=
  (topChildren w).bind
    (List.findSome?
      (fun c =>
        match c with
        | Widget.scrollableH (Widget.row _ _ cs) => some cs
        | _ => none))

/-- The action row: always the last child of the column. -/
def actionsOf {M : Type} (w : Widget M) : Option (Widget M) :=
  (topChildren w).bind List.getLast?

/-- The reply control: the first button of the action row. -/
def replyControlOf (w : Widget StatusMsg) : Option (Widget StatusMsg) :=
  (actionsOf w).bind
    (fun r =>
      match r with
      | Widget.row _ _ (reply :: _) => some reply
      | _ => none)

/-- The favorite control: the third button of the action row. -/
def favoriteControlOf (w : Widget StatusMsg) : Option (Widget StatusMsg) :=
  (actionsOf w).bind
    (fun r =>
      match r with
      | Widget.row _ _ [_, _, favButton, _] => some favButton
      | _ => none)

/-- The direct image children of the account column (header and avatar are
the only direct children built with the plain `image` constructor). -/
def accountTopImages (w : Widget AccountMsg) :
    Option (List (Widget AccountMsg)) :=
  (topChildren w).map
    (List.filterMap
      (fun c =>
        match c with
        | Widget.image h wd ht => some (Widget.image h wd ht)
        | _ => none))

/-- Whether the account column has a direct plain-text child — the bio is
the only direct child built with the plain `text` constructor. -/
def hasBioText (w : Widget AccountMsg) : Bool :=
  match topChildren w with
  | some cs =>
    cs.any (fun c => match c with | Widget.text _ => true | _ => false)
  | none => false

/-! ### Helper lemmas -/

theorem getLast?_append_of_getLast? {α : Type} {l₂ : List α} {a : α}
    (l₁ : List α) (h : l₂.getLast? = some a) :
    (l₁ ++ l₂).getLast? = some a := by
  induction l₁ with
  | nil => simpa using h
  | cons x t ih =>
    cases htl : t ++ l₂ with
    | nil =>
      rcases List.append_eq_nil.mp htl with ⟨-, h2⟩
      subst h2; simp at h
    | cons y ys =>
      have : ((x :: t) ++ l₂) = x :: y :: ys := by simp [htl]
      rw [this, List.getLast?_cons_cons, ← htl, ih]

/-- Inverting `statusRender ... = some w`: the conversion and the favourited
flag both succeeded and `w` is the assembled tree. -/
theorem statusRender_some {conv : String → Option String} {sp : Spacing}
    {st : MastStatus} {handles : StatusHandles} {w : Widget StatusMsg}
    (h : statusRender conv sp st handles = some w) :
    ∃ bodyText fav, conv (effStatus st).content = some bodyText ∧
      (effStatus st).favourited = some fav ∧
      w = statusTree sp st handles bodyText fav := by
  unfold statusRender at h
  cases hc : conv (effStatus st).content with
  | none => rw [hc] at h; simp at h
  | some bodyText =>
    cases hf : (effStatus st).favourited with
    | none => rw [hc, hf] at h; simp at h
    | some fav =>
      rw [hc, hf] at h
      exact ⟨bodyText, fav, rfl, rfl, (Option.some_injective _ h).symm⟩

/-- Inverting `accountRender ... = some w`. -/
theorem accountRender_some {conv fmtDate : String → Option String}
    {sp : Spacing} {acc : MastAccount} {cache : HandleMap}
    {w : Widget AccountMsg}
    (h : accountRender conv fmtDate sp acc cache = some w) :
    ∃ noteText joinedStr fieldsOpt, conv acc.note = some noteText ∧
      fmtDate acc.created_at = some joinedStr ∧
      fieldsWidgets conv acc = some fieldsOpt ∧
      w = accountTree sp acc cache noteText joinedStr fieldsOpt := by
  unfold accountRender at h
  cases hn : conv acc.note with
  | none => rw [hn] at h; simp at h
  | some noteText =>
    cases hj : fmtDate acc.created_at with
    | none => rw [hn, hj] at h; simp at h
    | some joinedStr =>
      cases hfo : fieldsWidgets conv acc with
      | none => rw [hn, hj, hfo] at h; simp at h
      | some fieldsOpt =>
        rw [hn, hj, hfo] at h
        exact ⟨noteText, joinedStr, fieldsOpt, rfl, rfl, rfl,
          (Option.some_injective _ h).symm⟩

/-- The action row is always the last child of the status column. -/
theorem actionsOf_statusTree (sp : Spacing) (st : MastStatus)
    (handles : StatusHandles) (bodyText : String) (fav : Bool) :
    actionsOf (statusTree sp st handles bodyText fav) =
      some (actionsRow sp (effStatus st) fav) := by
  unfold actionsOf statusTree topChildren
  simp only [Option.some_bind, ← List.append_assoc, List.getLast?_concat]

/-- The boost banner read back from the assembled tree is exactly the banner
the render pushed (present iff the status has a reblog). -/
theorem boostBannerOf_statusTree (sp : Spacing) (st : MastStatus)
    (handles : StatusHandles) (bodyText : String) (fav : Bool) :
    boostBannerOf (statusTree sp st handles bodyText fav) =
      bannerFor sp st (avatarSlots st handles).2 := by
  unfold boostBannerOf statusTree topChildren
  cases hr : st.reblog with
  | none => simp [bannerFor, hr, contentRow]
  | some r => simp [bannerFor, hr]

/-- The main-card avatar read back from the assembled tree: the selected
avatar slot, with the fallback handle substituted when the slot is empty. -/
theorem mainAvatarOf_statusTree (sp : Spacing) (st : MastStatus)
    (handles : StatusHandles) (bodyText : String) (fav : Bool) :
    mainAvatarOf (statusTree sp st handles bodyText fav) =
      some ((avatarSlots st handles).1.getD fallback_handle) := by
  unfold mainAvatarOf statusTree topChildren
  cases hr : st.reblog with
  | none => simp [bannerFor, hr, contentRow, List.findSome?]
  | some r => simp [bannerFor, hr, contentRow, List.findSome?]

/-- The media strip read back from the assembled tree: absent when the
effective status has no attachments, otherwise exactly the attachment
buttons with a resolved entry in `handles.media`. -/
theorem mediaImagesOf_statusTree (sp : Spacing) (st : MastStatus)
    (handles : StatusHandles) (bodyText : String) (fav : Bool) :
    mediaImagesOf (statusTree sp st handles bodyText fav) =
      if (effStatus st).media_attachments.isEmpty then none
      else some (attachmentImages (effStatus st) handles) := by
  unfold mediaImagesOf statusTree topChildren
  by_cases hm : (effStatus st).media_attachments.isEmpty <;>
    by_cases ht : (effStatus st).tags.isEmpty <;>
    cases hr : st.reblog <;>
    simp [bannerFor, hr, contentRow, mediaStripFor, tagsRow, actionsRow,
      hm, ht, List.findSome?]

/-- First-match lookup in a list mapping each attachment's preview URL to a
value computed from that URL alone finds exactly that computed value for
every member attachment. -/
theorem lookup_map_preview (g : String → Handle)
    (l : List MediaAttachment) (m : MediaAttachment) (hm : m ∈ l) :
    lookupHandle
      (l.map (fun x => (x.preview_url, g x.preview_url))) m.preview_url =
      some (g m.preview_url) := by
  induction l with
  | nil => cases hm
  | cons a t ih =>
    simp only [List.map_cons, lookupHandle]
    by_cases h : a.preview_url = m.preview_url
    · simp [h]
    · have hmt : m ∈ t := by
        rcases List.mem_cons.mp hm with h1 | h1
        · exact absurd (h1 ▸ rfl) h
        · exact h1
      simp [h, ih hmt]

/-- Lemma: `collectFields` succeeds exactly when every field value converts. -/
theorem collectFields_isSome (conv : String → Option String)
    (fs : List AccountField) :
    (collectFields conv fs).isSome =
      fs.all (fun f => (conv f.value).isSome) := by
  induction fs with
  | nil => simp [collectFields]
  | cons f t ih =>
    cases hf : conv f.value with
    | none => simp [collectFields, fieldWidget, hf]
    | some v =>
      cases hrest : collectFields conv t with
      | none => simp [collectFields, fieldWidget, hf, hrest, ← ih]
      | some ws => simp [collectFields, fieldWidget, hf, hrest, ← ih]

/-! ### Concrete fixtures (used by witnesses and counterexamples) -/

/-- Identity embedding of the rich-text conversion: always succeeds. -/
def convId : String → Option String := fun s => some s

/-- An always-succeeding date formatter. -/
def fmtOk : String → Option String := fun _ => some "01 Jan 2020"

def sp0 : Spacing := ⟨8, 4⟩

def accA : MastAccount :=
  { avatar := "avA", header := "hdrA", display_name := "Alice"
    username := "alice", url := "urlA", note := ""
    created_at := "2020-01-01", followers_count := 1, following_count := 2
    statuses_count := 3, fields := none }

def accB : MastAccount :=
  { avatar := "avB", header := "hdrB", display_name := "Bob"
    username := "bob", url := "urlB", note := "hello"
    created_at := "2021-02-02", followers_count := 0, following_count := 0
    statuses_count := 0, fields := none }

def mAtt : MediaAttachment := ⟨"u", some "link"⟩

/-- A plain (non-reblog) status with one media attachment, an absent reply
count and a positive favourited flag. -/
def stPlain : MastStatus :=
  MastStatus.mk "id3" accA "plain content" [mAtt] [] none none 2 5 (some true)

/-- The inner (original) status of the boost fixture. -/
def innerSt : MastStatus :=
  MastStatus.mk "id1" accB "inner content" [mAtt] [] none (some 0) 0 5
    (some true)

/-- A boost: an outer status with no media of its own wrapping `innerSt`. -/
def stBoost : MastStatus :=
  MastStatus.mk "id2" accA "outer content" [] [] (some innerSt) none 0 0 none

def cache0 : HandleMap := []

def cacheHdr : HandleMap := [("hdrA", ⟨"H"⟩)]

def hBoth : StatusHandles := ⟨some ⟨"p"⟩, some ⟨"s"⟩, [("u", ⟨"m"⟩)]⟩

def hEmpty : StatusHandles := ⟨none, none, []⟩

def ntf0 : MastNotification := ⟨accA, none⟩

/-! ### Claim theorems -/

/-- Claim C1: for every status and every StatusHandles value, the status
render applies the avatar slot inversion rule — when a reblog is present the
main-card avatar is taken from `handles.secondary` and the boost-banner
avatar from `handles.primary`, and the banner shows the outer status's
account (its display name and profile URL); when no reblog is present the
main avatar is taken from `handles.primary` and no banner is produced. -/
theorem avatar_slot_inversion (conv : String → Option String) (sp : Spacing)
    (st : MastStatus) (handles : StatusHandles) (w : Widget StatusMsg)
    (hw : statusRender conv sp st handles = some w) :
    (∀ r, st.reblog = some r →
      mainAvatarOf w = some (handles.secondary.getD fallback_handle) ∧
      boostBannerOf w =
        some (Widget.customButton none
          (some (StatusMsg.openProfile st.account.url))
          (Widget.row (some sp.space_xs) none
            [ (handles.primary.map
                (fun a => Widget.image a (some 20) (some 20))).getD
                (Widget.image fallback_avatar_handle (some 20) (some 20)),
              Widget.text (st.account.display_name ++ " boosted") ]))) ∧
    (st.reblog = none →
      mainAvatarOf w = some (handles.primary.getD fallback_handle) ∧
      boostBannerOf w = none) := by
  obtain ⟨bodyText, fav, hc, hf, rfl⟩ := statusRender_some hw
  constructor
  · intro r hr
    refine ⟨?_, ?_⟩
    · rw [mainAvatarOf_statusTree]
      simp [avatarSlots, hr]
    · rw [boostBannerOf_statusTree]
      simp [bannerFor, avatarSlots, hr]
  · intro hr
    refine ⟨?_, ?_⟩
    · rw [mainAvatarOf_statusTree]
      simp [avatarSlots, hr]
    · rw [boostBannerOf_statusTree]
      simp [bannerFor, hr]

theorem avatar_slot_inversion_witness :
    mainAvatarOf (statusTree sp0 stBoost hBoth "inner content" true) =
      some ⟨"s"⟩ ∧
    boostBannerOf (statusTree sp0 stPlain hBoth "plain content" true) =
      none := by
  have h₁ := avatar_slot_inversion convId sp0 stBoost hBoth _ rfl
  have h₂ := avatar_slot_inversion convId sp0 stPlain hBoth _ rfl
  exact ⟨(h₁.1 innerSt rfl).1, (h₂.2 rfl).2⟩

/-- Claim C2, counterexample: on a boost whose inner status carries a media
attachment (preview URL "u") while the outer status carries none,
`StatusHandles::from_status` does NOT put "u" into the media mapping — the
constructor maps the attachments of the outer status, not those of the
effective (reblogged) status as the claim states. -/
theorem media_mapping_cex :
    ¬ (∀ m ∈ (effStatus stBoost).media_attachments,
        (lookupHandle (StatusHandles.from_status stBoost cache0).media
          m.preview_url).isSome) := by
  decide

/-- Claim C2, amended: both constructors are total, and the media mapping
keys are the attachments of the status the constructor actually walks — the
OUTER status itself for `from_status` (even when a reblog is present) and
the notification-embedded status for `from_notification`; each such
attachment's preview URL maps to the cached handle when present and to the
fallback placeholder handle otherwise. -/
theorem media_mapping_amended (st : MastStatus) (n : MastNotification)
    (cache : HandleMap) :
    (∀ m ∈ st.media_attachments,
      lookupHandle (StatusHandles.from_status st cache).media m.preview_url =
        some ((lookupHandle cache m.preview_url).getD fallback_handle)) ∧
    (∀ s, n.status = some s → ∀ m ∈ s.media_attachments,
      lookupHandle (StatusHandles.from_notification n cache).media
          m.preview_url =
        some ((lookupHandle cache m.preview_url).getD fallback_handle)) := by
  constructor
  · intro m hm
    exact lookup_map_preview
      (fun u => (lookupHandle cache u).getD fallback_handle)
      st.media_attachments m hm
  · intro s hs m hm
    unfold StatusHandles.from_notification
    rw [hs]
    exact lookup_map_preview
      (fun u => (lookupHandle cache u).getD fallback_handle)
      s.media_attachments m hm

theorem media_mapping_amended_witness :
    lookupHandle (StatusHandles.from_status stPlain cache0).media "u" =
      some fallback_handle := by
  have h := (media_mapping_amended stPlain ntf0 cache0).1 mAtt (by decide)
  exact h

/-- Claim C3, counterexample: with one attachment (preview URL "u", link
"link") and an empty image-handle cache, rendering through the intended
pipeline (`StatusHandles::from_status` then `status`) does NOT omit the
uncached attachment — the strip contains it, rendered with the fallback
placeholder handle, because `from_status` maps every uncached URL to the
fallback rather than leaving it out. -/
theorem media_strip_cex :
    lookupHandle cache0 "u" = none ∧
    (statusRender convId sp0 stPlain
        (StatusHandles.from_status stPlain cache0)).bind mediaImagesOf =
      some [Widget.imageButton fallback_handle none none
        (some (StatusMsg.openLink "link"))] :=
  ⟨rfl, rfl⟩

/-- Claim C3, amended: when the displayed status's media-attachment list is
empty no scrollable media strip is produced; when it is non-empty the strip
contains exactly the attachments whose preview URL has an entry in the
`handles.media` mapping, each rendered with its mapped handle (so an
attachment missing from `handles.media` is omitted, but an attachment that
is merely uncached is rendered with the fallback handle once `from_status`
has placed the fallback in the mapping). -/
theorem media_strip_amended (conv : String → Option String) (sp : Spacing)
    (st : MastStatus) (handles : StatusHandles) (w : Widget StatusMsg)
    (hw : statusRender conv sp st handles = some w) :
    ((effStatus st).media_attachments = [] → mediaImagesOf w = none) ∧
    ((effStatus st).media_attachments ≠ [] →
      mediaImagesOf w = some (attachmentImages (effStatus st) handles)) := by
  obtain ⟨bodyText, fav, hc, hf, rfl⟩ := statusRender_some hw
  rw [mediaImagesOf_statusTree]
  constructor
  · intro hm; simp [hm]
  · intro hm; simp [hm]

theorem media_strip_amended_witness :
    mediaImagesOf (statusTree sp0 stPlain hBoth "plain content" true) =
      some [Widget.imageButton ⟨"m"⟩ none none
        (some (StatusMsg.openLink "link"))] := by
  have h := (media_strip_amended convId sp0 stPlain hBoth _ rfl).2 (by decide)
  exact h

/-- Lemma: `fieldsWidgets` succeeds exactly when every listed field value
converts. -/
theorem fieldsWidgets_isSome (conv : String → Option String)
    (acc : MastAccount) :
    (fieldsWidgets conv acc).isSome = true ↔
      (∀ fs, acc.fields = some fs → ∀ f ∈ fs, (conv f.value).isSome) := by
  cases hfs : acc.fields with
  | none => simp [fieldsWidgets, hfs]
  | some fs =>
    have hiso : (fieldsWidgets conv acc).isSome =
        (collectFields conv fs).isSome := by
      simp only [fieldsWidgets, hfs]
      cases collectFields conv fs <;> rfl
    rw [hiso, collectFields_isSome]
    simp [List.all_eq_true, hfs]

/-- Claim C4: rendering fails fatally exactly on the three malformed-input
cases — the status render fails iff the displayed status's favourited flag
is absent or the rich-text conversion of its content fails, and the account
render fails iff a rich-text conversion (of the bio or of a profile-field
value) fails or the join-date formatting fails; on all other inputs both
renders succeed. -/
theorem fatal_cases (conv fmtDate : String → Option String) (sp : Spacing)
    (st : MastStatus) (handles : StatusHandles) (acc : MastAccount)
    (cache : HandleMap) :
    ((statusRender conv sp st handles).isSome ↔
      ((conv (effStatus st).content).isSome ∧
        ((effStatus st).favourited).isSome)) ∧
    ((accountRender conv fmtDate sp acc cache).isSome ↔
      ((conv acc.note).isSome ∧ (fmtDate acc.created_at).isSome ∧
        (∀ fs, acc.fields = some fs → ∀ f ∈ fs, (conv f.value).isSome))) := by
  constructor
  · cases hc : conv (effStatus st).content <;>
      cases hf : (effStatus st).favourited <;>
      simp [statusRender, hc, hf]
  · have hfw := fieldsWidgets_isSome conv acc
    cases hn : conv acc.note <;> cases hj : fmtDate acc.created_at <;>
      cases hfo : fieldsWidgets conv acc <;>
      rw [hfo] at hfw <;>
      simp_all [accountRender, hn, hj, hfo]

/-- Claim C5: the favorite control of the action row shows the displayed
status's favourites count as its label, and carries the active Link class
when `favourited = some true` and the standard class when
`favourited = some false`. -/
theorem favorite_control (conv : String → Option String) (sp : Spacing)
    (st : MastStatus) (handles : StatusHandles) (w : Widget StatusMsg)
    (fav : Bool) (hf : (effStatus st).favourited = some fav)
    (hw : statusRender conv sp st handles = some w) :
    favoriteControlOf w =
      some (Widget.iconButton "starred-symbolic"
        (some (toString (effStatus st).favourites_count))
        (some (if fav then BtnClass.link else BtnClass.standard))
        (some (StatusMsg.favorite (effStatus st).id))) := by
  obtain ⟨bodyText, fav', hc, hf', rfl⟩ := statusRender_some hw
  have : fav' = fav := by
    rw [hf] at hf'
    exact (Option.some_injective _ hf'.symm)
  subst this
  simp [favoriteControlOf, actionsOf_statusTree, actionsRow]

theorem favorite_control_witness :
    favoriteControlOf (statusTree sp0 stPlain hBoth "plain content" true) =
      some (Widget.iconButton "starred-symbolic" (some "5")
        (some BtnClass.link) (some (StatusMsg.favorite "id3"))) := by
  have h := favorite_control convId sp0 stPlain hBoth _ true rfl rfl
  exact h

/-- Claim C6: both render functions are deterministic — two calls with
structurally equal inputs (domain object, cache or StatusHandles snapshot,
theme spacing, conversion functions) return structurally equal widget trees;
input immutability is inherent to the functional embedding. -/
theorem render_deterministic (conv fmtDate : String → Option String)
    (sp : Spacing) (a₁ a₂ : MastAccount) (c₁ c₂ : HandleMap)
    (s₁ s₂ : MastStatus) (h₁ h₂ : StatusHandles)
    (ha : a₁ = a₂) (hc : c₁ = c₂) (hs : s₁ = s₂) (hh : h₁ = h₂) :
    accountRender conv fmtDate sp a₁ c₁ = accountRender conv fmtDate sp a₂ c₂ ∧
    statusRender conv sp s₁ h₁ = statusRender conv sp s₂ h₂ := by
  subst ha; subst hc; subst hs; subst hh
  exact ⟨rfl, rfl⟩

theorem render_deterministic_witness :
    accountRender convId fmtOk sp0 accA cache0 =
      accountRender convId fmtOk sp0 accA cache0 ∧
    statusRender convId sp0 stPlain hBoth =
      statusRender convId sp0 stPlain hBoth :=
  render_deterministic convId fmtOk sp0 accA accA cache0 cache0 stPlain
    stPlain hBoth hBoth rfl rfl rfl rfl

/-- Claim C7: the direct image elements of the rendered account card are
exactly the header image (when `account.header` is cached) followed by the
avatar image (when `account.avatar` is cached); an uncached one is omitted
entirely, with no placeholder substituted. -/
theorem account_images (conv fmtDate : String → Option String)
    (sp : Spacing) (acc : MastAccount) (cache : HandleMap)
    (w : Widget AccountMsg)
    (hw : accountRender conv fmtDate sp acc cache = some w) :
    accountTopImages w =
      some (((lookupHandle cache acc.header).map
          (fun h => Widget.image h none none)).toList
        ++ ((lookupHandle cache acc.avatar).map
            (fun h => Widget.image h (some 100) none)).toList) := by
  obtain ⟨noteText, joinedStr, fieldsOpt, hn, hj, hfo, rfl⟩ :=
    accountRender_some hw
  unfold accountTopImages accountTree topChildren
  cases hh : lookupHandle cache acc.header <;>
    cases ha : lookupHandle cache acc.avatar <;>
    by_cases hnote : acc.note = "" <;>
    cases fieldsOpt <;>
    simp [hh, ha, hnote, infoRow, List.filterMap_append]

theorem account_images_witness :
    accountTopImages (accountTree sp0 accA cacheHdr "" "01 Jan 2020" none) =
      some [Widget.image ⟨"H"⟩ none none] := by
  have h := account_images convId fmtOk sp0 accA cacheHdr _ rfl
  exact h

/-- Claim C8: the rendered account card has a bio element iff the account's
note is non-empty — an empty note produces no bio element, a non-empty note
produces one (the rich-text conversion of the note). -/
theorem bio_presence (conv fmtDate : String → Option String) (sp : Spacing)
    (acc : MastAccount) (cache : HandleMap) (w : Widget AccountMsg)
    (hw : accountRender conv fmtDate sp acc cache = some w) :
    (acc.note = "" → hasBioText w = false) ∧
    (acc.note ≠ "" → hasBioText w = true) := by
  obtain ⟨noteText, joinedStr, fieldsOpt, hn, hj, hfo, rfl⟩ :=
    accountRender_some hw
  unfold hasBioText accountTree topChildren
  cases hh : lookupHandle cache acc.header <;>
    cases ha : lookupHandle cache acc.avatar <;>
    by_cases hnote : acc.note = "" <;>
    cases fieldsOpt <;>
    simp [hh, ha, hnote, infoRow, List.any_append]

theorem bio_presence_witness :
    hasBioText (accountTree sp0 accB cache0 "hello" "01 Jan 2020" none) =
      true ∧
    hasBioText (accountTree sp0 accA cache0 "" "01 Jan 2020" none) =
      false := by
  have h₁ := bio_presence convId fmtOk sp0 accB cache0 _ rfl
  have h₂ := bio_presence convId fmtOk sp0 accA cache0 _ rfl
  exact ⟨h₁.2 (by decide), h₂.1 rfl⟩

/-- Claim C9: the status render never omits the main-card avatar or the
boost-banner avatar — the main avatar is always present, showing the
selected slot's handle or the fallback placeholder handle when the slot is
empty, and whenever a reblog is present the banner avatar is the primary
slot's image or the fallback avatar image when that slot is empty. -/
theorem avatar_fallbacks (conv : String → Option String) (sp : Spacing)
    (st : MastStatus) (handles : StatusHandles) (w : Widget StatusMsg)
    (hw : statusRender conv sp st handles = some w) :
    mainAvatarOf w = some ((avatarSlots st handles).1.getD fallback_handle) ∧
    (∀ r, st.reblog = some r →
      bannerAvatarOf w =
        some ((handles.primary.map
            (fun a => Widget.image a (some 20) (some 20))).getD
          (Widget.image fallback_avatar_handle (some 20) (some 20)))) := by
  obtain ⟨bodyText, fav, hc, hf, rfl⟩ := statusRender_some hw
  refine ⟨mainAvatarOf_statusTree sp st handles bodyText fav, ?_⟩
  intro r hr
  unfold bannerAvatarOf
  rw [boostBannerOf_statusTree]
  simp [bannerFor, avatarSlots, hr]

theorem avatar_fallbacks_witness :
    mainAvatarOf (statusTree sp0 stBoost hEmpty "inner content" true) =
      some fallback_handle ∧
    bannerAvatarOf (statusTree sp0 stBoost hEmpty "inner content" true) =
      some (Widget.image fallback_avatar_handle (some 20) (some 20)) := by
  have h := avatar_fallbacks convId sp0 stBoost hEmpty _ rfl
  exact ⟨h.1, h.2 innerSt rfl⟩

/-- Claim C10: a status whose displayed reply count is absent still renders
(provided the other fallible inputs are fine), and the reply control's label
defaults to "0" — a missing reply count degrades to zero instead of failing,
in contrast to the favourited flag. -/
theorem reply_count_default (conv : String → Option String) (sp : Spacing)
    (st : MastStatus) (handles : StatusHandles)
    (hr : (effStatus st).replies_count = none)
    (hf : ((effStatus st).favourited).isSome)
    (hc : (conv (effStatus st).content).isSome) :
    ∃ w, statusRender conv sp st handles = some w ∧
      replyControlOf w =
        some (Widget.iconButton "mail-replied-symbolic" (some "0") none
          (some (StatusMsg.reply (effStatus st).id))) := by
  obtain ⟨fav, hfEq⟩ := Option.isSome_iff_exists.mp hf
  obtain ⟨bodyText, hcEq⟩ := Option.isSome_iff_exists.mp hc
  refine ⟨statusTree sp st handles bodyText fav, ?_, ?_⟩
  · unfold statusRender
    rw [hcEq, hfEq]
  · simp [replyControlOf, actionsOf_statusTree, actionsRow, hr]
    rfl

theorem reply_count_default_witness :
    ∃ w, statusRender convId sp0 stPlain hBoth = some w ∧
      replyControlOf w =
        some (Widget.iconButton "mail-replied-symbolic" (some "0") none
          (some (StatusMsg.reply "id3"))) :=
  reply_count_default convId sp0 stPlain hBoth rfl rfl rfl

end Toot
